import Mathlib

/-!
Shallow embedding of the KMD Nova ESDH client
(`itk_dev_shared_components/kmd_nova/api.py`).

Conventions of the embedding:

* Python `datetime` values are modelled as `Int` timestamps counted in
  seconds; `timedelta(seconds = n)` is the integer `n` and
  `datetime.now()` is an explicit `now` argument.
* Network traffic is made explicit: every operation receives the HTTP
  responses it would observe as arguments, and returns - besides its
  result and the updated client state - the list of requests it sent,
  in order.  `uuid.uuid4()` draws are explicit `String` arguments.
* Raised Python exceptions are modelled with `Except PyError`.
* JSON bodies handled dynamically by the Python code are modelled by the
  inductive `JsonValue`; `d[key]` raises `KeyError` when the key is
  absent, and `d.get(key, None)` yields an `Option`.
-/

/-- Python exceptions raised by the client code. -/
inductive PyError where
  | keyError (key : String)
  | valueError (msg : String)
  | httpError (status : Nat)
  | typeError
deriving DecidableEq

/-- Dynamic JSON values, as the Python code handles them. -/
inductive JsonValue where
  | str (s : String)
  | boolVal (b : Bool)
  | num (n : Int)
  | null
  | arr (elems : List JsonValue)
  | obj (fields : List (String × JsonValue))

/-- Python `d[key]` on a JSON object: `KeyError` when the key is absent,
`TypeError` when the value is not a dict. -/
def JsonValue.getItem : JsonValue → String → Except PyError JsonValue
  | .obj fields, key =>
      match fields.find? (fun f => f.1 == key) with
      | some f => .ok f.2
      | none => .error (.keyError key)
  | _, _ => .error .typeError

/-- Python `d.get(key, None)`: `none` models Python `None`. -/
def JsonValue.getDefault : JsonValue → String → Option JsonValue
  | .obj fields, key => (fields.find? (fun f => f.1 == key)).map (fun f => f.2)
  | _, _ => none

/-- Python iteration over a JSON value that is expected to be a list. -/
def JsonValue.asList : JsonValue → Except PyError (List JsonValue)
  | .arr elems => .ok elems
  | _ => .error .typeError

/-- Modelled from the spec: the `CaseParty` value object of
`nova_objects.py` (that file is not in the source tree).  A record of the
four fields the case mapper fills; the display name is optional. -/
structure CaseParty where
  identification_type : JsonValue
  identification : JsonValue
  role : JsonValue
  name : Option JsonValue

/-- Modelled from the spec: the `NovaCase` value object of
`nova_objects.py`; the fields are exactly the ones `get_cases` fills. -/
structure NovaCase where
  uuid : JsonValue
  title : JsonValue
  case_date : JsonValue
  case_number : JsonValue
  active_code : JsonValue
  progress_state : JsonValue
  case_parties : List CaseParty

/-- Modelled from the spec: the `NovaDocument` value object of
`nova_objects.py`; the fields are exactly the ones `get_documents` fills,
with the description optional. -/
structure NovaDocument where
  uuid : JsonValue
  title : JsonValue
  sensitivity : JsonValue
  document_type : JsonValue
  description : Option JsonValue
  approved : JsonValue
  document_date : JsonValue
  file_extension : JsonValue

/-- The mutable state of a `NovaESDH` instance: the two credential fields
set in `__init__` and the token pair `(_bearer_token, token_expiry_date)`. -/
structure ClientState where
  client_id : String
  client_secret : String
  bearer_token : String
  token_expiry_date : Int
deriving DecidableEq

/-- An HTTP response as the client observes it: a status code and a body. -/
structure HttpResponse (α : Type) where
  status : Nat
  body : α

/-- Body of a response from the token endpoint: the fields
`access_token` and `expires_in` that `_get_new_token` reads. -/
structure TokenBody where
  access_token : String
  expires_in : Int
deriving DecidableEq

/-- Python `response.raise_for_status()`: raises `HTTPError` exactly for
status codes 400 and above. -/
def raise_for_status (status : Nat) : Except PyError Unit :=
  if 400 ≤ status then .error (.httpError status) else .ok ()

/-- `NovaESDH.DOMAIN`. -/
def DOMAIN : String := "https://cap-novaapi.kmd.dk"

/-- The fixed authentication endpoint used by `_get_new_token`. -/
def token_url : String :=
  "https://novaauth.kmd.dk/realms/NovaIntegration/protocol/openid-connect/token"

/-- The `paging` component of the case-search and document-list payloads. -/
structure Paging where
  startRow : Int
  numberOfRows : Int
deriving DecidableEq

/-- The `common` component carrying a transaction id. -/
structure CommonId where
  transactionId : String
deriving DecidableEq

/-- The `caseAttributes` filter of the case-search payload. -/
structure CaseAttributesFilter where
  userFriendlyCaseNumber : Option String
  title : Option String
deriving DecidableEq

/-- The `caseParty` filter of the case-search payload. -/
structure CasePartyFilter where
  identificationType : String
  identification : Option String
deriving DecidableEq

/-- The `caseGetOutput.caseParty` projection flags. -/
structure CasePartyOutput where
  identificationType : Bool
  identification : Bool
  partyRole : Bool
  name : Bool
deriving DecidableEq

/-- The `caseGetOutput.caseAttributes` projection flags. -/
structure CaseAttributesOutput where
  title : Bool
  userFriendlyCaseNumber : Bool
  caseDate : Bool
deriving DecidableEq

/-- The `caseGetOutput.state` projection flags. -/
structure StateOutput where
  activeCode : Bool
  progressState : Bool
deriving DecidableEq

/-- The `caseGetOutput` component of the case-search payload. -/
structure CaseGetOutput where
  numberOfSecondaryParties : Bool
  caseParty : CasePartyOutput
  caseAttributes : CaseAttributesOutput
  state : StateOutput
deriving DecidableEq

/-- The JSON payload built by `get_cases`. -/
structure CaseSearchPayload where
  common : CommonId
  paging : Paging
  caseAttributes : CaseAttributesFilter
  caseParty : CasePartyFilter
  caseGetOutput : CaseGetOutput
deriving DecidableEq

/-- The `getOutput` projection flags of the document-list payload. -/
structure DocumentGetOutput where
  title : Bool
  sensitivity : Bool
  documentType : Bool
  description : Bool
  approved : Bool
  documentDate : Bool
  fileExtension : Bool
  responsibleDepartment : Bool
  securityUnit : Bool
deriving DecidableEq

/-- The JSON payload built by `get_documents`. -/
structure DocumentListPayload where
  common : CommonId
  paging : Paging
  getOutput : DocumentGetOutput
  caseUuid : String
deriving DecidableEq

/-- The `common` component of the file-download payload. -/
structure GetFileCommon where
  transactionId : String
  uuid : String
deriving DecidableEq

/-- The JSON payload built by `download_document_file`. -/
structure GetFilePayload where
  common : GetFileCommon
  checkOutDocument : Bool
  checkOutComment : Option String
deriving DecidableEq

/-- The `losIdentity` component of the attach payload. -/
structure LosIdentity where
  administrativeUnitId : Int
  fullName : String
deriving DecidableEq

/-- The `securityUnit` component of the attach payload. -/
structure SecurityUnitPayload where
  losIdentity : LosIdentity
deriving DecidableEq

/-- The `common` component of the attach payload: transaction id and the
document uuid taken from the supplied document object. -/
structure AttachCommon where
  transactionId : String
  uuid : JsonValue

/-- The JSON payload built by `attach_document_to_case`. -/
structure AttachPayload where
  common : AttachCommon
  caseUuid : String
  title : JsonValue
  sensitivity : JsonValue
  documentDate : String
  documentType : JsonValue
  description : Option JsonValue
  securityUnit : SecurityUnitPayload
  approved : JsonValue
  accessToDocuments : Bool

/-- One outgoing HTTP request, as the client sends it. -/
inductive Request where
  | tokenReq (url : String) (payload : String)
  | getReq (url : String)
  | caseSearchReq (url : String) (payload : CaseSearchPayload)
  | uploadReq (url transaction_id document_id file_name mime_type file_content : String)
  | documentListReq (url : String) (payload : DocumentListPayload)
  | getFileReq (url : String) (payload : GetFilePayload)
  | attachReq (url : String) (payload : AttachPayload)

/-- The form-encoded body `_get_new_token` posts to the token endpoint. -/
def tokenPayload (client_id client_secret : String) : String :=
  "client_secret=" ++ client_secret ++ "&grant_type=client_credentials&client_id="
    ++ client_id ++ "&scope=client"

/-- `NovaESDH._get_new_token`: posts the client credentials to the fixed
auth endpoint, raises for a non-success status, and otherwise returns the
token together with the expiry `now + expires_in`. -/
def get_new_token (client_id client_secret : String) (now : Int)
    (tokResp : HttpResponse TokenBody) :
    Except PyError (String × Int) × List Request :=
  (match raise_for_status tokResp.status with
   | .error e => .error e
   | .ok _ => .ok (tokResp.body.access_token, now + tokResp.body.expires_in),
   [Request.tokenReq token_url (tokenPayload client_id client_secret)])

/-- The refresh condition of `get_bearer_token`:
`self.token_expiry_date + timedelta(seconds=30) < datetime.now()`. -/
def refreshDue (st : ClientState) (now : Int) : Bool :=
  st.token_expiry_date + 30 < now

/-- `NovaESDH.get_bearer_token`: re-obtains a token when the refresh
condition holds, otherwise returns the cached token unchanged.  Returns
the token, the updated client state and the requests sent. -/
def get_bearer_token (st : ClientState) (now : Int)
    (tokResp : HttpResponse TokenBody) :
    Except PyError String × ClientState × List Request :=
  if refreshDue st now then
    match get_new_token st.client_id st.client_secret now tokResp with
    | (.ok (tok, expiry), reqs) =>
        (.ok tok, { st with bearer_token := tok, token_expiry_date := expiry }, reqs)
    | (.error e, reqs) => (.error e, st, reqs)
  else
    (.ok st.bearer_token, st, [])

/-- Python truthiness of an optional string argument: `None` and the
empty string are falsy, every other string is truthy. -/
def truthy : Option String → Bool
  | none => false
  | some s => !(s == "")

/-- Python `any` over a tuple of optional string arguments, as in
`any((cpr, case_number, case_title))`. -/
def pyAny (xs : List (Option String)) : Bool :=
  xs.any truthy

/-- Python `os.path.basename` on a path using the `/` separator. -/
def basename (p : String) : String :=
  match (p.splitOn "/").getLast? with
  | some s => s
  | none => p

/-- Zero-pads a natural number to the given width. -/
def padNum (width n : Nat) : String :=
  let s := toString n
  if s.length < width then String.mk (List.replicate (width - s.length) '0') ++ s else s

/-- Python `datetime.now().strftime('%Y-%m-%dT%H:%M:%SZ')` for a
non-negative timestamp counted in seconds since the Unix epoch, using the
standard civil-from-days calendar conversion. -/
def strftime_iso (t : Int) : String :=
  let n := t.toNat
  let secs := n % 86400
  let z := n / 86400 + 719468
  let era := z / 146097
  let doe := z % 146097
  let yoe := (doe - doe / 1460 + doe / 36524 - doe / 146096) / 365
  let y := yoe + era * 400
  let doy := doe - (365 * yoe + yoe / 4 - yoe / 100)
  let mp := (5 * doy + 2) / 153
  let d := doy - (153 * mp + 2) / 5 + 1
  let m := if mp < 10 then mp + 3 else mp - 9
  let year := if m ≤ 2 then y + 1 else y
  padNum 4 year ++ "-" ++ padNum 2 m ++ "-" ++ padNum 2 d ++ "T" ++
    padNum 2 (secs / 3600) ++ ":" ++ padNum 2 (secs % 3600 / 60) ++ ":" ++
    padNum 2 (secs % 60) ++ "Z"

/-- The case-search payload literal of `get_cases`, with the generated
transaction id and the three optional filters inserted. -/
def buildCaseSearchPayload (u : String) (cpr case_number case_title : Option String) :
    CaseSearchPayload :=
  { common := { transactionId := u },
    paging := { startRow := 1, numberOfRows := 100 },
    caseAttributes := { userFriendlyCaseNumber := case_number, title := case_title },
    caseParty := { identificationType := "CprNummer", identification := cpr },
    caseGetOutput :=
      { numberOfSecondaryParties := true,
        caseParty :=
          { identificationType := true, identification := true,
            partyRole := true, name := true },
        caseAttributes :=
          { title := true, userFriendlyCaseNumber := true, caseDate := true },
        state := { activeCode := true, progressState := true } } }

/-- The document-list payload literal of `get_documents`. -/
def buildDocumentListPayload (u : String) (case_uuid : String) : DocumentListPayload :=
  { common := { transactionId := u },
    paging := { startRow := 1, numberOfRows := 100 },
    getOutput :=
      { title := true, sensitivity := true, documentType := true,
        description := true, approved := true, documentDate := true,
        fileExtension := true, responsibleDepartment := true,
        securityUnit := true },
    caseUuid := case_uuid }

/-- The file-download payload literal of `download_document_file`. -/
def buildGetFilePayload (u document_uuid : String) (checkout : Bool)
    (checkout_comment : Option String) : GetFilePayload :=
  { common := { transactionId := u, uuid := document_uuid },
    checkOutDocument := checkout,
    checkOutComment := checkout_comment }

/-- The attach payload literal of `attach_document_to_case`: the document
uuid and metadata come from the supplied document object, the document
date is `datetime.now()` formatted at attach time, and the security unit
is built from the two security-unit arguments. -/
def buildAttachPayload (u : String) (now : Int) (case_uuid : String)
    (document : NovaDocument) (security_unit_id : Int)
    (security_unit_name : String) : AttachPayload :=
  { common := { transactionId := u, uuid := document.uuid },
    caseUuid := case_uuid,
    title := document.title,
    sensitivity := document.sensitivity,
    documentDate := strftime_iso now,
    documentType := document.document_type,
    description := document.description,
    securityUnit :=
      { losIdentity :=
          { administrativeUnitId := security_unit_id,
            fullName := security_unit_name } },
    approved := document.approved,
    accessToDocuments := true }

/-- The default of the `security_unit_id` argument of
`attach_document_to_case`. -/
def default_security_unit_id : Int := 818485

/-- The default of the `security_unit_name` argument of
`attach_document_to_case`. -/
def default_security_unit_name : String := "Borgerservice"

/-- The body of the party loop of `get_cases`: builds one `CaseParty`
from one element of `caseParties`, looking the three required fields up
with `[...]` and the name with `.get('name', None)`. -/
def mapParty (party_dict : JsonValue) : Except PyError CaseParty :=
  match party_dict.getItem "identificationType" with
  | .error e => .error e
  | .ok idType =>
    match party_dict.getItem "identification" with
    | .error e => .error e
    | .ok ident =>
      match party_dict.getItem "partyRole" with
      | .error e => .error e
      | .ok role =>
        .ok { identification_type := idType, identification := ident,
              role := role, name := party_dict.getDefault "name" }

/-- The party loop of `get_cases`: maps the elements of `caseParties` in
order, stopping at the first failing element. -/
def mapParties : List JsonValue → Except PyError (List CaseParty)
  | [] => .ok []
  | party_dict :: rest =>
    match mapParty party_dict with
    | .error e => .error e
    | .ok party =>
      match mapParties rest with
      | .error e => .error e
      | .ok parties => .ok (party :: parties)

/-- The `NovaCase(...)` constructor call of `get_cases`: evaluates the
field lookups of one case element in source order, with the already
mapped parties list. -/
def mapCaseRecord (case_dict : JsonValue) (parties : List CaseParty) :
    Except PyError NovaCase :=
  match case_dict.getItem "common" with
  | .error e => .error e
  | .ok common =>
    match common.getItem "uuid" with
    | .error e => .error e
    | .ok caseUuid =>
      match case_dict.getItem "caseAttributes" with
      | .error e => .error e
      | .ok attrs =>
        match attrs.getItem "title" with
        | .error e => .error e
        | .ok title =>
          match attrs.getItem "caseDate" with
          | .error e => .error e
          | .ok caseDate =>
            match attrs.getItem "userFriendlyCaseNumber" with
            | .error e => .error e
            | .ok caseNumber =>
              match case_dict.getItem "state" with
              | .error e => .error e
              | .ok state =>
                match state.getItem "activeCode" with
                | .error e => .error e
                | .ok activeCode =>
                  match state.getItem "progressState" with
                  | .error e => .error e
                  | .ok progressState =>
                    .ok { uuid := caseUuid, title := title,
                          case_date := caseDate, case_number := caseNumber,
                          active_code := activeCode,
                          progress_state := progressState,
                          case_parties := parties }

/-- The case loop body of `get_cases`: maps the `caseParties` array of
one case element in order, then builds the `NovaCase`. -/
def mapCase (case_dict : JsonValue) : Except PyError NovaCase :=
  match case_dict.getItem "caseParties" with
  | .error e => .error e
  | .ok partiesJson =>
    match partiesJson.asList with
    | .error e => .error e
    | .ok partyDicts =>
      match mapParties partyDicts with
      | .error e => .error e
      | .ok parties => mapCaseRecord case_dict parties

/-- The case loop of `get_cases` over the response's `cases` array. -/
def mapCases : List JsonValue → Except PyError (List NovaCase)
  | [] => .ok []
  | case_dict :: rest =>
    match mapCase case_dict with
    | .error e => .error e
    | .ok c =>
      match mapCases rest with
      | .error e => .error e
      | .ok cs => .ok (c :: cs)

/-- Conversion of a whole case-search response body:
`response.json()['cases']` iterated through the case loop. -/
def mapCasesResponse (body : JsonValue) : Except PyError (List NovaCase) :=
  match body.getItem "cases" with
  | .error e => .error e
  | .ok casesJson =>
    match casesJson.asList with
    | .error e => .error e
    | .ok caseDicts => mapCases caseDicts

/-- The document loop body of `get_documents`: builds one `NovaDocument`
from one element of the response's `documents` array, looking the seven
required fields up with `[...]` and the description with
`.get('description', None)`. -/
def mapDocument (document_dict : JsonValue) : Except PyError NovaDocument :=
  match document_dict.getItem "documentUuid" with
  | .error e => .error e
  | .ok docUuid =>
    match document_dict.getItem "title" with
    | .error e => .error e
    | .ok title =>
      match document_dict.getItem "sensitivity" with
      | .error e => .error e
      | .ok sensitivity =>
        match document_dict.getItem "documentType" with
        | .error e => .error e
        | .ok docType =>
          match document_dict.getItem "approved" with
          | .error e => .error e
          | .ok approved =>
            match document_dict.getItem "documentDate" with
            | .error e => .error e
            | .ok docDate =>
              match document_dict.getItem "fileExtension" with
              | .error e => .error e
              | .ok fileExt =>
                .ok { uuid := docUuid, title := title,
                      sensitivity := sensitivity, document_type := docType,
                      description := document_dict.getDefault "description",
                      approved := approved, document_date := docDate,
                      file_extension := fileExt }

/-- The document loop of `get_documents` over the response's `documents`
array. -/
def mapDocuments : List JsonValue → Except PyError (List NovaDocument)
  | [] => .ok []
  | document_dict :: rest =>
    match mapDocument document_dict with
    | .error e => .error e
    | .ok d =>
      match mapDocuments rest with
      | .error e => .error e
      | .ok ds => .ok (d :: ds)

/-- Conversion of a whole document-list response body:
`response.json()['documents']` iterated through the document loop. -/
def mapDocumentsResponse (body : JsonValue) : Except PyError (List NovaDocument) :=
  match body.getItem "documents" with
  | .error e => .error e
  | .ok docsJson =>
    match docsJson.asList with
    | .error e => .error e
    | .ok docDicts => mapDocuments docDicts

/-- `NovaESDH.__init__`: stores the credentials and eagerly obtains a
token via `_get_new_token`; a failing exchange propagates and no client
state is produced. -/
def NovaESDH_init (client_id client_secret : String) (now : Int)
    (tokResp : HttpResponse TokenBody) :
    Except PyError ClientState × List Request :=
  match get_new_token client_id client_secret now tokResp with
  | (.ok (tok, expiry), reqs) =>
      (.ok { client_id := client_id, client_secret := client_secret,
             bearer_token := tok, token_expiry_date := expiry }, reqs)
  | (.error e, reqs) => (.error e, reqs)

/-- `NovaESDH.get_address_by_cpr`: builds the query URL with a fresh
transaction id, obtains a bearer token, sends a GET and returns the JSON
body on success. -/
def get_address_by_cpr (st : ClientState) (now : Int) (cpr : String)
    (u : String) (tokResp : HttpResponse TokenBody)
    (resp : HttpResponse JsonValue) :
    Except PyError JsonValue × ClientState × List Request :=
  let url := DOMAIN ++ "/api/Cpr/GetAddressByCpr?TransactionId=" ++ u
      ++ "&Cpr=" ++ cpr ++ "&api-version=1.0-Cpr"
  match get_bearer_token st now tokResp with
  | (.error e, st1, reqs) => (.error e, st1, reqs)
  | (.ok _tok, st1, reqs) =>
      let reqs := reqs ++ [Request.getReq url]
      match raise_for_status resp.status with
      | .error e => (.error e, st1, reqs)
      | .ok _ => (.ok resp.body, st1, reqs)

/-- `NovaESDH.get_cases`: raises `ValueError` before any request when no
search term is truthy; otherwise builds the search payload, obtains a
bearer token, sends a PUT and maps the response to `NovaCase` objects. -/
def get_cases (st : ClientState) (now : Int)
    (cpr case_number case_title : Option String) (u : String)
    (tokResp : HttpResponse TokenBody) (resp : HttpResponse JsonValue) :
    Except PyError (List NovaCase) × ClientState × List Request :=
  if pyAny [cpr, case_number, case_title] = false then
    (.error (.valueError "No search terms given."), st, [])
  else
    let url := DOMAIN ++ "/api/Case/GetList?api-version=1.0-Case"
    let payload := buildCaseSearchPayload u cpr case_number case_title
    match get_bearer_token st now tokResp with
    | (.error e, st1, reqs) => (.error e, st1, reqs)
    | (.ok _tok, st1, reqs) =>
        let reqs := reqs ++ [Request.caseSearchReq url payload]
        match raise_for_status resp.status with
        | .error e => (.error e, st1, reqs)
        | .ok _ => (mapCasesResponse resp.body, st1, reqs)

/-- `NovaESDH.upload_document`: draws a transaction id and a document id,
builds the upload URL from them, obtains a bearer token, guesses the
content type from the path (falling back to `application/octet-stream`),
posts the file as a multipart body and returns the generated document id
on success.  `guessedMime` models `mimetypes.guess_type(document_path)[0]`
and `fileContent` the bytes read from the file. -/
def upload_document (st : ClientState) (now : Int) (document_path : String)
    (u1 u2 : String) (guessedMime : Option String) (fileContent : String)
    (tokResp : HttpResponse TokenBody) (resp : HttpResponse Unit) :
    Except PyError String × ClientState × List Request :=
  let transaction_id := u1
  let document_id := u2
  let url := DOMAIN ++ "/api/Document/UploadFile/" ++ transaction_id ++ "/"
      ++ document_id ++ "?api-version=1.0-Case"
  match get_bearer_token st now tokResp with
  | (.error e, st1, reqs) => (.error e, st1, reqs)
  | (.ok _tok, st1, reqs) =>
      let file_name := basename document_path
      let mime_type :=
        match guessedMime with
        | none => "application/octet-stream"
        | some m => m
      let reqs := reqs ++
        [Request.uploadReq url transaction_id document_id file_name mime_type fileContent]
      match raise_for_status resp.status with
      | .error e => (.error e, st1, reqs)
      | .ok _ => (.ok document_id, st1, reqs)

/-- `NovaESDH.get_documents`: builds the document-list payload, obtains a
bearer token, sends a PUT and maps the response to `NovaDocument`
objects. -/
def get_documents (st : ClientState) (now : Int) (case_uuid : String)
    (u : String) (tokResp : HttpResponse TokenBody)
    (resp : HttpResponse JsonValue) :
    Except PyError (List NovaDocument) × ClientState × List Request :=
  let url := DOMAIN ++ "/api/Document/GetList?api-version=1.0-Case"
  let payload := buildDocumentListPayload u case_uuid
  match get_bearer_token st now tokResp with
  | (.error e, st1, reqs) => (.error e, st1, reqs)
  | (.ok _tok, st1, reqs) =>
      let reqs := reqs ++ [Request.documentListReq url payload]
      match raise_for_status resp.status with
      | .error e => (.error e, st1, reqs)
      | .ok _ => (mapDocumentsResponse resp.body, st1, reqs)

/-- `NovaESDH.download_document_file`: builds the file-download payload,
obtains a bearer token, sends a PUT and returns the raw response content
as an in-memory stream. -/
def download_document_file (st : ClientState) (now : Int)
    (document_uuid : String) (checkout : Bool) (checkout_comment : Option String)
    (u : String) (tokResp : HttpResponse TokenBody)
    (resp : HttpResponse String) :
    Except PyError String × ClientState × List Request :=
  let url := DOMAIN ++ "/api/Document/GetFile?api-version=1.0-Case"
  let payload := buildGetFilePayload u document_uuid checkout checkout_comment
  match get_bearer_token st now tokResp with
  | (.error e, st1, reqs) => (.error e, st1, reqs)
  | (.ok _tok, st1, reqs) =>
      let reqs := reqs ++ [Request.getFileReq url payload]
      match raise_for_status resp.status with
      | .error e => (.error e, st1, reqs)
      | .ok _ => (.ok resp.body, st1, reqs)

/-- `NovaESDH.attach_document_to_case`: builds the attach payload from
the supplied document object, the current time and the security-unit
arguments, obtains a bearer token and sends a single POST. -/
def attach_document_to_case (st : ClientState) (now : Int)
    (case_uuid : String) (document : NovaDocument)
    (security_unit_id : Int) (security_unit_name : String)
    (u : String) (tokResp : HttpResponse TokenBody)
    (resp : HttpResponse Unit) :
    Except PyError Unit × ClientState × List Request :=
  let url := DOMAIN ++ "/api/Document/Import?api-version=1.0-Case"
  let payload := buildAttachPayload u now case_uuid document
      security_unit_id security_unit_name
  match get_bearer_token st now tokResp with
  | (.error e, st1, reqs) => (.error e, st1, reqs)
  | (.ok _tok, st1, reqs) =>
      let reqs := reqs ++ [Request.attachReq url payload]
      match raise_for_status resp.status with
      | .error e => (.error e, st1, reqs)
      | .ok _ => (.ok (), st1, reqs)

/-- C1: the claim states that `get_bearer_token` refreshes whenever the
cached expiry is within 30 seconds of the current time or already past,
and that the returned token's expiry is therefore in the future.  The
code's condition is `token_expiry_date + 30 < now`, so with the cached
expiry at time 100 and the clock at 110 - ten seconds past expiry - the
cached token is returned unchanged, no token request is sent, and the
returned token's expiry (100) is not in the future. -/
theorem C1_expired_token_returned_without_refresh :
    get_bearer_token
        { client_id := "id", client_secret := "secret",
          bearer_token := "cachedtok", token_expiry_date := 100 }
        110
        { status := 200, body := { access_token := "newtok", expires_in := 3600 } }
      = (.ok "cachedtok",
         { client_id := "id", client_secret := "secret",
           bearer_token := "cachedtok", token_expiry_date := 100 },
         [])
    ∧ (100 : Int) < 110 := by
  constructor
  · rfl
  · decide

/-- Case analysis of `get_bearer_token`: no refresh, successful refresh,
or failing refresh, each with the exact result. -/
theorem get_bearer_token_cases (st : ClientState) (now : Int)
    (tokResp : HttpResponse TokenBody) :
    (refreshDue st now = false
       ∧ get_bearer_token st now tokResp = (.ok st.bearer_token, st, []))
  ∨ (refreshDue st now = true ∧ tokResp.status < 400
       ∧ get_bearer_token st now tokResp
         = (.ok tokResp.body.access_token,
            { st with bearer_token := tokResp.body.access_token,
                      token_expiry_date := now + tokResp.body.expires_in },
            [Request.tokenReq token_url
               (tokenPayload st.client_id st.client_secret)]))
  ∨ (refreshDue st now = true ∧ 400 ≤ tokResp.status
       ∧ get_bearer_token st now tokResp
         = (.error (.httpError tokResp.status), st,
            [Request.tokenReq token_url
               (tokenPayload st.client_id st.client_secret)])) := by
  by_cases h : refreshDue st now
  · by_cases h2 : 400 ≤ tokResp.status
    · right; right
      refine ⟨h, h2, ?_⟩
      simp [get_bearer_token, get_new_token, raise_for_status, h, h2]
    · right; left
      refine ⟨h, Nat.lt_of_not_le h2, ?_⟩
      simp [get_bearer_token, get_new_token, raise_for_status, h, h2]
  · left
    refine ⟨by simp [h], ?_⟩
    simp [get_bearer_token, h]

/-- C2: calling `get_cases` with all three search filters absent raises
`ValueError` before any network request is issued and leaves the client
state unchanged. -/
theorem C2_no_filter_raises_value_error (st : ClientState) (now : Int)
    (u : String) (tokResp : HttpResponse TokenBody)
    (resp : HttpResponse JsonValue) :
    get_cases st now none none none u tokResp resp
      = (.error (.valueError "No search terms given."), st, []) := by
  rfl

/-- C9: filter absence in `get_cases` is decided by Python truthiness, so
the empty string counts as absent: whenever each of the three filters is
either `None` or `""`, the call raises `ValueError`, sends no request and
leaves the client state unchanged. -/
theorem C9_empty_string_filters_rejected (st : ClientState) (now : Int)
    (cpr case_number case_title : Option String) (u : String)
    (tokResp : HttpResponse TokenBody) (resp : HttpResponse JsonValue)
    (h1 : cpr = none ∨ cpr = some "")
    (h2 : case_number = none ∨ case_number = some "")
    (h3 : case_title = none ∨ case_title = some "") :
    get_cases st now cpr case_number case_title u tokResp resp
      = (.error (.valueError "No search terms given."), st, []) := by
  have t1 : truthy cpr = false := by
    rcases h1 with h | h <;> simp [h, truthy]
  have t2 : truthy case_number = false := by
    rcases h2 with h | h <;> simp [h, truthy]
  have t3 : truthy case_title = false := by
    rcases h3 with h | h <;> simp [h, truthy]
  have hp : pyAny [cpr, case_number, case_title] = false := by
    simp [pyAny, t1, t2, t3]
  simp [get_cases, hp]

/-- C9 witness: the rejection at a concrete call mixing `None` and empty
strings. -/
theorem C9_empty_string_filters_rejected_witness :
    get_cases
        { client_id := "id", client_secret := "secret",
          bearer_token := "tok", token_expiry_date := 1000 }
        0 (some "") none (some "") "u"
        { status := 200, body := { access_token := "a", expires_in := 10 } }
        { status := 200, body := .null }
      = (.error (.valueError "No search terms given."),
         { client_id := "id", client_secret := "secret",
           bearer_token := "tok", token_expiry_date := 1000 },
         []) :=
  C9_empty_string_filters_rejected _ _ _ _ _ _ _ _
    (Or.inr rfl) (Or.inl rfl) (Or.inr rfl)

/-- C8: constructing the client eagerly performs the token exchange.  On
a success status the stored expiry is `now + expires_in`, which is
strictly in the future when the server-declared lifetime is positive; on
a non-success status construction fails with the HTTP error and no
client state is produced. -/
theorem C8_init_eager_token (client_id client_secret : String) (now : Int)
    (tokResp : HttpResponse TokenBody) :
    (tokResp.status < 400 → 0 < tokResp.body.expires_in →
       NovaESDH_init client_id client_secret now tokResp
         = (.ok { client_id := client_id, client_secret := client_secret,
                  bearer_token := tokResp.body.access_token,
                  token_expiry_date := now + tokResp.body.expires_in },
            [Request.tokenReq token_url (tokenPayload client_id client_secret)])
       ∧ now < now + tokResp.body.expires_in)
  ∧ (400 ≤ tokResp.status →
       NovaESDH_init client_id client_secret now tokResp
         = (.error (.httpError tokResp.status),
            [Request.tokenReq token_url (tokenPayload client_id client_secret)])) := by
  constructor
  · intro hs hl
    constructor
    · have hn : ¬ 400 ≤ tokResp.status := Nat.not_le.mpr hs
      simp [NovaESDH_init, get_new_token, raise_for_status, hn]
    · omega
  · intro hs
    simp [NovaESDH_init, get_new_token, raise_for_status, hs]

/-- C8 witness: a successful and a failing construction at concrete
inputs. -/
theorem C8_init_eager_token_witness :
    (NovaESDH_init "id" "secret" 1000
        { status := 200, body := { access_token := "tok", expires_in := 60 } }
      = (.ok { client_id := "id", client_secret := "secret",
               bearer_token := "tok", token_expiry_date := 1000 + 60 },
         [Request.tokenReq token_url (tokenPayload "id" "secret")])
     ∧ (1000 : Int) < 1000 + 60)
  ∧ NovaESDH_init "id" "secret" 1000
        { status := 401, body := { access_token := "", expires_in := 0 } }
      = (.error (.httpError 401),
         [Request.tokenReq token_url (tokenPayload "id" "secret")]) :=
  ⟨(C8_init_eager_token "id" "secret" 1000
      { status := 200, body := { access_token := "tok", expires_in := 60 } }).1
      (by decide) (by decide),
   (C8_init_eager_token "id" "secret" 1000
      { status := 401, body := { access_token := "", expires_in := 0 } }).2
      (by decide)⟩

/-- C5: every case-search request and every document-list request that
`get_cases` or `get_documents` sends carries the fixed paging component
`startRow = 1, numberOfRows = 100`, regardless of the arguments. -/
theorem C5_paging_fixed :
    (∀ st now cpr case_number case_title u tokResp resp url p,
       Request.caseSearchReq url p ∈
         (get_cases st now cpr case_number case_title u tokResp resp).2.2 →
       p.paging = { startRow := 1, numberOfRows := 100 })
  ∧ (∀ st now case_uuid u tokResp resp url p,
       Request.documentListReq url p ∈
         (get_documents st now case_uuid u tokResp resp).2.2 →
       p.paging = { startRow := 1, numberOfRows := 100 }) := by
  constructor
  · intro st now cpr case_number case_title u tokResp resp url p hmem
    by_cases hq : pyAny [cpr, case_number, case_title] = false
    · simp [get_cases, hq] at hmem
    · rcases hrs : raise_for_status resp.status with e | v <;>
        rcases get_bearer_token_cases st now tokResp with
          ⟨hr, heq⟩ | ⟨hr, hs, heq⟩ | ⟨hr, hs, heq⟩ <;>
        simp [get_cases, hq, heq, hrs] at hmem <;>
        (try rcases hmem with ⟨h1, h2⟩) <;>
        (try subst h2) <;>
        rfl
  · intro st now case_uuid u tokResp resp url p hmem
    rcases hrs : raise_for_status resp.status with e | v <;>
      rcases get_bearer_token_cases st now tokResp with
        ⟨hr, heq⟩ | ⟨hr, hs, heq⟩ | ⟨hr, hs, heq⟩ <;>
      simp [get_documents, heq, hrs] at hmem <;>
      (try rcases hmem with ⟨h1, h2⟩) <;>
      (try subst h2) <;>
      rfl

/-- C5 witness: the paging component at one concrete case-search call and
one concrete document-list call. -/
theorem C5_paging_fixed_witness :
    (buildCaseSearchPayload "u" (some "0123456789") none none).paging
      = { startRow := 1, numberOfRows := 100 }
  ∧ (buildDocumentListPayload "u" "case-uuid").paging
      = { startRow := 1, numberOfRows := 100 } := by
  constructor
  · exact C5_paging_fixed.1
      { client_id := "id", client_secret := "secret",
        bearer_token := "tok", token_expiry_date := 1000 }
      0 (some "0123456789") none none "u"
      { status := 200, body := { access_token := "a", expires_in := 1 } }
      { status := 200, body := .obj [] }
      (DOMAIN ++ "/api/Case/GetList?api-version=1.0-Case")
      (buildCaseSearchPayload "u" (some "0123456789") none none)
      (List.Mem.head _)
  · exact C5_paging_fixed.2
      { client_id := "id", client_secret := "secret",
        bearer_token := "tok", token_expiry_date := 1000 }
      0 "case-uuid" "u"
      { status := 200, body := { access_token := "a", expires_in := 1 } }
      { status := 200, body := .obj [] }
      (DOMAIN ++ "/api/Document/GetList?api-version=1.0-Case")
      (buildDocumentListPayload "u" "case-uuid")
      (List.Mem.head _)

/-- Recognizer of attach requests in a request trace. -/
def isAttachReq : Request → Bool
  | .attachReq _ _ => true
  | _ => false

/-- C6: whenever the bearer token is obtainable, `attach_document_to_case`
sends exactly one attach request; its body's document uuid is the uuid of
the supplied document, its `documentDate` is the formatted current time at
attach time, and its security unit is built from the two security-unit
arguments, whose declared defaults are id 818485 and name
"Borgerservice". -/
theorem C6_attach_single_request
    (st : ClientState) (now : Int) (case_uuid : String)
    (document : NovaDocument) (security_unit_id : Int)
    (security_unit_name : String) (u : String)
    (tokResp : HttpResponse TokenBody) (resp : HttpResponse Unit)
    (htok : refreshDue st now = false ∨ tokResp.status < 400) :
    (((attach_document_to_case st now case_uuid document security_unit_id
         security_unit_name u tokResp resp).2.2).filter
           (fun r => isAttachReq r)).length = 1
  ∧ (∀ url p,
       Request.attachReq url p ∈
         (attach_document_to_case st now case_uuid document security_unit_id
            security_unit_name u tokResp resp).2.2 →
       p.common.uuid = document.uuid
       ∧ p.documentDate = strftime_iso now
       ∧ p.securityUnit
           = { losIdentity := { administrativeUnitId := security_unit_id,
                                fullName := security_unit_name } })
  ∧ default_security_unit_id = 818485
  ∧ default_security_unit_name = "Borgerservice" := by
  rcases get_bearer_token_cases st now tokResp with
    ⟨hr, heq⟩ | ⟨hr, hs, heq⟩ | ⟨hr, hs, heq⟩
  · refine ⟨?_, ?_, rfl, rfl⟩
    · rcases hrs : raise_for_status resp.status with e | v <;>
        simp [attach_document_to_case, heq, hrs, isAttachReq]
    · intro url p hmem
      rcases hrs : raise_for_status resp.status with e | v <;>
        simp [attach_document_to_case, heq, hrs] at hmem <;>
        (rcases hmem with ⟨h1, h2⟩; subst h2; exact ⟨rfl, rfl, rfl⟩)
  · refine ⟨?_, ?_, rfl, rfl⟩
    · rcases hrs : raise_for_status resp.status with e | v <;>
        simp [attach_document_to_case, heq, hrs, isAttachReq]
    · intro url p hmem
      rcases hrs : raise_for_status resp.status with e | v <;>
        simp [attach_document_to_case, heq, hrs] at hmem <;>
        (rcases hmem with ⟨h1, h2⟩; subst h2; exact ⟨rfl, rfl, rfl⟩)
  · exfalso
    rcases htok with h | h
    · rw [hr] at h
      simp at h
    · omega

/-- C6 witness: the attach trace and payload at a concrete call. -/
theorem C6_attach_single_request_witness :
    (((attach_document_to_case
         { client_id := "id", client_secret := "secret",
           bearer_token := "tok", token_expiry_date := 1000 }
         0 "case-uuid"
         { uuid := .str "doc-uuid", title := .str "t",
           sensitivity := .str "s", document_type := .str "d",
           description := none, approved := .boolVal true,
           document_date := .str "2020-01-01T00:00:00Z",
           file_extension := .str "pdf" }
         default_security_unit_id default_security_unit_name "u"
         { status := 200, body := { access_token := "a", expires_in := 1 } }
         { status := 200, body := () }).2.2).filter
           (fun r => isAttachReq r)).length = 1
  ∧ default_security_unit_id = 818485
  ∧ default_security_unit_name = "Borgerservice" := by
  have h := C6_attach_single_request
      { client_id := "id", client_secret := "secret",
        bearer_token := "tok", token_expiry_date := 1000 }
      0 "case-uuid"
      { uuid := .str "doc-uuid", title := .str "t",
        sensitivity := .str "s", document_type := .str "d",
        description := none, approved := .boolVal true,
        document_date := .str "2020-01-01T00:00:00Z",
        file_extension := .str "pdf" }
      default_security_unit_id default_security_unit_name "u"
      { status := 200, body := { access_token := "a", expires_in := 1 } }
      { status := 200, body := () }
      (Or.inl rfl)
  exact ⟨h.1, h.2.2.1, h.2.2.2⟩

/-- C7: `upload_document` sends exactly one multipart upload request,
whose URL path embeds the two freshly drawn identifiers (the transaction
id and the new document id, in that order), whose file part carries the
base name of the path and the guessed content type with the
`application/octet-stream` fallback, and on a success status the function
returns exactly the generated document id embedded in the URL. -/
theorem C7_upload_ids_and_mime
    (st : ClientState) (now : Int) (document_path : String)
    (u1 u2 : String) (guessedMime : Option String) (fileContent : String)
    (tokResp : HttpResponse TokenBody) (resp : HttpResponse Unit)
    (htok : refreshDue st now = false) :
    (upload_document st now document_path u1 u2 guessedMime fileContent
        tokResp resp).2.2
      = [Request.uploadReq
           (DOMAIN ++ "/api/Document/UploadFile/" ++ u1 ++ "/" ++ u2
              ++ "?api-version=1.0-Case")
           u1 u2 (basename document_path)
           (guessedMime.getD "application/octet-stream") fileContent]
  ∧ (guessedMime = none →
       (upload_document st now document_path u1 u2 guessedMime fileContent
           tokResp resp).2.2
         = [Request.uploadReq
              (DOMAIN ++ "/api/Document/UploadFile/" ++ u1 ++ "/" ++ u2
                 ++ "?api-version=1.0-Case")
              u1 u2 (basename document_path)
              "application/octet-stream" fileContent])
  ∧ (resp.status < 400 →
       (upload_document st now document_path u1 u2 guessedMime fileContent
           tokResp resp).1 = .ok u2) := by
  rcases get_bearer_token_cases st now tokResp with
    ⟨hr, heq⟩ | ⟨hr, hs, heq⟩ | ⟨hr, hs, heq⟩
  · refine ⟨?_, ?_, ?_⟩
    · rcases hrs : raise_for_status resp.status with e | v <;>
        cases guessedMime <;>
        simp [upload_document, heq, hrs, Option.getD]
    · intro hg
      subst hg
      rcases hrs : raise_for_status resp.status with e | v <;>
        simp [upload_document, heq, hrs]
    · intro hst
      have hrs : raise_for_status resp.status = .ok () := by
        simp [raise_for_status, Nat.not_le.mpr hst]
      simp [upload_document, heq, hrs]
  · rw [hr] at htok
    cases htok
  · rw [hr] at htok
    cases htok

/-- C7 witness: a concrete upload with an unguessable content type and a
success response returns the second drawn identifier. -/
theorem C7_upload_ids_and_mime_witness :
    (upload_document
        { client_id := "id", client_secret := "secret",
          bearer_token := "tok", token_expiry_date := 1000 }
        0 "/tmp/file.bin" "uuid-1" "uuid-2" none "bytes"
        { status := 200, body := { access_token := "a", expires_in := 1 } }
        { status := 200, body := () }).2.2
      = [Request.uploadReq
           (DOMAIN ++ "/api/Document/UploadFile/" ++ "uuid-1" ++ "/" ++ "uuid-2"
              ++ "?api-version=1.0-Case")
           "uuid-1" "uuid-2" (basename "/tmp/file.bin")
           "application/octet-stream" "bytes"]
  ∧ (upload_document
        { client_id := "id", client_secret := "secret",
          bearer_token := "tok", token_expiry_date := 1000 }
        0 "/tmp/file.bin" "uuid-1" "uuid-2" none "bytes"
        { status := 200, body := { access_token := "a", expires_in := 1 } }
        { status := 200, body := () }).1 = .ok "uuid-2" := by
  have h := C7_upload_ids_and_mime
      { client_id := "id", client_secret := "secret",
        bearer_token := "tok", token_expiry_date := 1000 }
      0 "/tmp/file.bin" "uuid-1" "uuid-2" none "bytes"
      { status := 200, body := { access_token := "a", expires_in := 1 } }
      { status := 200, body := () }
      rfl
  exact ⟨h.2.1 rfl, h.2.2 (by decide)⟩

/-- The `NovaCase` record built by `mapCaseRecord` carries exactly the
parties list it was given. -/
theorem mapCaseRecord_parties (cd : JsonValue) (parties : List CaseParty)
    (c : NovaCase) (h : mapCaseRecord cd parties = .ok c) :
    c.case_parties = parties := by
  unfold mapCaseRecord at h
  repeat (split at h <;> try cases h)
  rfl

/-- C3: the party loop of `get_cases` maps each element of a case's
`caseParties` array to exactly one `CaseParty`, preserving the received
order, the parties stored in the mapped case are exactly the mapped
array, and a party element without a `name` key maps to an explicitly
absent name. -/
theorem C3_party_mapping :
    (∀ (ps : List JsonValue) (l : List CaseParty),
       mapParties ps = .ok l →
       l.length = ps.length
       ∧ ∀ i (hi : i < ps.length) (hl : i < l.length),
           mapParty (ps.get ⟨i, hi⟩) = .ok (l.get ⟨i, hl⟩))
  ∧ (∀ (cd : JsonValue) (ps : List JsonValue) (c : NovaCase),
       JsonValue.getItem cd "caseParties" = .ok (.arr ps) →
       mapCase cd = .ok c →
       mapParties ps = .ok c.case_parties)
  ∧ (∀ (fields : List (String × JsonValue)) (p : CaseParty),
       fields.find? (fun f => f.1 == "name") = none →
       mapParty (.obj fields) = .ok p →
       p.name = none) := by
  refine ⟨?_, ?_, ?_⟩
  · intro ps
    induction ps with
    | nil =>
      intro l h
      injection h with h
      subst h
      exact ⟨rfl, fun i hi _ => absurd hi (Nat.not_lt_zero i)⟩
    | cons pd rest ih =>
      intro l h
      unfold mapParties at h
      split at h
      · cases h
      · rename_i party hparty
        split at h
        · cases h
        · rename_i parties hrest
          injection h with h
          subst h
          obtain ⟨hlen, hidx⟩ := ih parties hrest
          refine ⟨by simp [hlen], ?_⟩
          intro i hi hl
          cases i with
          | zero => simpa using hparty
          | succ j =>
            have hj : j < rest.length := by simpa using hi
            have hj2 : j < parties.length := by simpa using hl
            simpa using hidx j hj hj2
  · intro cd ps c hget hc
    unfold mapCase at hc
    rw [hget] at hc
    simp only [JsonValue.asList] at hc
    split at hc
    · cases hc
    · rename_i parties hparties
      rw [hparties, mapCaseRecord_parties cd parties c hc]
  · intro fields p hfind hp
    unfold mapParty at hp
    repeat (split at hp <;> try cases hp)
    simp [JsonValue.getDefault, hfind]

/-- Fields of a demo party element that carries a name. -/
def C3demo_fields1 : List (String × JsonValue) :=
  [("identificationType", .str "CprNummer"), ("identification", .str "0101011234"),
   ("partyRole", .str "Primary"), ("name", .str "Test Person")]

/-- Fields of a demo party element without a `name` key. -/
def C3demo_fields2 : List (String × JsonValue) :=
  [("identificationType", .str "CprNummer"), ("identification", .str "0202024321"),
   ("partyRole", .str "Secondary")]

/-- A demo `caseParties` array with two parties, the second one missing
its name. -/
def C3demo_parties : List JsonValue :=
  [.obj C3demo_fields1, .obj C3demo_fields2]

/-- The parties the loop maps `C3demo_parties` to. -/
def C3demo_mapped : List CaseParty :=
  [{ identification_type := .str "CprNummer", identification := .str "0101011234",
     role := .str "Primary", name := some (.str "Test Person") },
   { identification_type := .str "CprNummer", identification := .str "0202024321",
     role := .str "Secondary", name := none }]

/-- A demo case element holding `C3demo_parties`. -/
def C3demo_case : JsonValue :=
  .obj [("caseParties", .arr C3demo_parties),
        ("common", .obj [("uuid", .str "case-uuid")]),
        ("caseAttributes",
         .obj [("title", .str "T"), ("caseDate", .str "2023-01-01"),
               ("userFriendlyCaseNumber", .str "S2023-1")]),
        ("state", .obj [("activeCode", .str "Aktiv"), ("progressState", .str "Opstaaet")])]

/-- The `NovaCase` the loop maps `C3demo_case` to. -/
def C3demo_case_mapped : NovaCase :=
  { uuid := .str "case-uuid", title := .str "T", case_date := .str "2023-01-01",
    case_number := .str "S2023-1", active_code := .str "Aktiv",
    progress_state := .str "Opstaaet", case_parties := C3demo_mapped }

/-- C3 witness: the two-party demo case maps to exactly two parties in
order, and the party without a `name` key maps to an absent name. -/
theorem C3_party_mapping_witness :
    C3demo_mapped.length = C3demo_parties.length
  ∧ mapParty (C3demo_parties.get ⟨1, by decide⟩)
      = .ok (C3demo_mapped.get ⟨1, by decide⟩)
  ∧ mapParties C3demo_parties = .ok C3demo_case_mapped.case_parties
  ∧ (C3demo_mapped.get ⟨1, by decide⟩).name = none := by
  refine ⟨?_, ?_, ?_, ?_⟩
  · exact (C3_party_mapping.1 C3demo_parties C3demo_mapped rfl).1
  · exact (C3_party_mapping.1 C3demo_parties C3demo_mapped rfl).2 1
      (by decide) (by decide)
  · exact C3_party_mapping.2.1 C3demo_case C3demo_parties C3demo_case_mapped rfl rfl
  · exact C3_party_mapping.2.2 C3demo_fields2 (C3demo_mapped.get ⟨1, by decide⟩)
      rfl rfl

/-- The required keys of one element of a document-list response, looked
up with `[...]` by the document loop of `get_documents`. -/
def requiredDocumentKeys : List String :=
  ["documentUuid", "title", "sensitivity", "documentType", "approved",
   "documentDate", "fileExtension"]

/-- Key lookup on an object either succeeds or raises the `KeyError` of
that key. -/
theorem getItem_obj_cases (fields : List (String × JsonValue)) (k : String) :
    (∃ v, JsonValue.getItem (.obj fields) k = .ok v)
  ∨ JsonValue.getItem (.obj fields) k = .error (.keyError k) := by
  cases h : fields.find? (fun f => f.1 == k) with
  | none => right; simp [JsonValue.getItem, h]
  | some f => left; exact ⟨f.2, by simp [JsonValue.getItem, h]⟩

/-- On an object element, `mapDocument` either succeeds with every
required key present, or raises the `KeyError` of a required key. -/
theorem mapDocument_obj_spec (fields : List (String × JsonValue)) :
    ((∀ k, k ∈ requiredDocumentKeys →
        ∃ f, fields.find? (fun x => x.1 == k) = some f)
      ∧ ∃ d, mapDocument (.obj fields) = .ok d)
  ∨ (∃ k, k ∈ requiredDocumentKeys
      ∧ mapDocument (.obj fields) = .error (.keyError k)) := by
  cases h1 : fields.find? (fun f => f.1 == "documentUuid") with
  | none =>
    right
    exact ⟨"documentUuid", by decide, by simp [mapDocument, JsonValue.getItem, h1]⟩
  | some f1 =>
  cases h2 : fields.find? (fun f => f.1 == "title") with
  | none =>
    right
    exact ⟨"title", by decide, by simp [mapDocument, JsonValue.getItem, h1, h2]⟩
  | some f2 =>
  cases h3 : fields.find? (fun f => f.1 == "sensitivity") with
  | none =>
    right
    exact ⟨"sensitivity", by decide, by simp [mapDocument, JsonValue.getItem, h1, h2, h3]⟩
  | some f3 =>
  cases h4 : fields.find? (fun f => f.1 == "documentType") with
  | none =>
    right
    exact ⟨"documentType", by decide,
           by simp [mapDocument, JsonValue.getItem, h1, h2, h3, h4]⟩
  | some f4 =>
  cases h5 : fields.find? (fun f => f.1 == "approved") with
  | none =>
    right
    exact ⟨"approved", by decide,
           by simp [mapDocument, JsonValue.getItem, h1, h2, h3, h4, h5]⟩
  | some f5 =>
  cases h6 : fields.find? (fun f => f.1 == "documentDate") with
  | none =>
    right
    exact ⟨"documentDate", by decide,
           by simp [mapDocument, JsonValue.getItem, h1, h2, h3, h4, h5, h6]⟩
  | some f6 =>
  cases h7 : fields.find? (fun f => f.1 == "fileExtension") with
  | none =>
    right
    exact ⟨"fileExtension", by decide,
           by simp [mapDocument, JsonValue.getItem, h1, h2, h3, h4, h5, h6, h7]⟩
  | some f7 =>
  left
  constructor
  · intro k hk
    simp only [requiredDocumentKeys, List.mem_cons, List.not_mem_nil, or_false] at hk
    rcases hk with rfl | rfl | rfl | rfl | rfl | rfl | rfl
    · exact ⟨f1, h1⟩
    · exact ⟨f2, h2⟩
    · exact ⟨f3, h3⟩
    · exact ⟨f4, h4⟩
    · exact ⟨f5, h5⟩
    · exact ⟨f6, h6⟩
    · exact ⟨f7, h7⟩
  · exact ⟨{ uuid := f1.2, title := f2.2, sensitivity := f3.2,
             document_type := f4.2,
             description := (JsonValue.obj fields).getDefault "description",
             approved := f5.2, document_date := f6.2, file_extension := f7.2 },
           by simp [mapDocument, JsonValue.getItem, h1, h2, h3, h4, h5, h6, h7]⟩

/-- A document list of object elements in which some element misses a
required key is mapped to the `KeyError` of a required key. -/
theorem mapDocuments_missing_key (docs : List JsonValue)
    (hobj : ∀ pd ∈ docs, ∃ fields, pd = .obj fields)
    (hmiss : ∃ pd ∈ docs, ∃ fields k, pd = .obj fields
               ∧ k ∈ requiredDocumentKeys
               ∧ fields.find? (fun f => f.1 == k) = none) :
    ∃ k2, k2 ∈ requiredDocumentKeys
      ∧ mapDocuments docs = .error (.keyError k2) := by
  induction docs with
  | nil =>
    rcases hmiss with ⟨pd, hpd, _⟩
    cases hpd
  | cons d rest ih =>
    obtain ⟨fields, rfl⟩ := hobj d (List.mem_cons_self d rest)
    rcases mapDocument_obj_spec fields with ⟨hall, d0, hd0⟩ | ⟨k, hk, he⟩
    · rcases hmiss with ⟨pd, hpd, fields2, k, hpdeq, hk, hnone⟩
      rcases List.mem_cons.mp hpd with rfl | hpd2
      · injection hpdeq with hf
        subst hf
        rcases hall k hk with ⟨f, hf⟩
        rw [hf] at hnone
        cases hnone
      · obtain ⟨k2, hk2, he2⟩ :=
          ih (fun pd hpd => hobj pd (List.mem_cons_of_mem _ hpd))
             ⟨pd, hpd2, fields2, k, hpdeq, hk, hnone⟩
        exact ⟨k2, hk2, by simp [mapDocuments, hd0, he2]⟩
    · exact ⟨k, hk, by simp [mapDocuments, he]⟩

/-- C4: a document element missing a required field makes the document
mapping fail with a key-lookup error on a required key - an error
distinct from every transport (HTTP-status) failure - and `get_documents`
then returns no partial document object; the optional `description` field
instead defaults to an explicitly absent value when missing. -/
theorem C4_missing_required_field :
    (∀ (fields : List (String × JsonValue)) (k : String),
       k ∈ requiredDocumentKeys →
       fields.find? (fun f => f.1 == k) = none →
       ∃ k2, k2 ∈ requiredDocumentKeys
         ∧ mapDocument (.obj fields) = .error (.keyError k2))
  ∧ (∀ k s, PyError.keyError k ≠ PyError.httpError s)
  ∧ (∀ (fields : List (String × JsonValue)) (d : NovaDocument),
       fields.find? (fun f => f.1 == "description") = none →
       mapDocument (.obj fields) = .ok d →
       d.description = none)
  ∧ (∀ st now case_uuid u (tokResp : HttpResponse TokenBody)
       (resp : HttpResponse JsonValue) (docs : List JsonValue),
       refreshDue st now = false →
       resp.status < 400 →
       JsonValue.getItem resp.body "documents" = .ok (.arr docs) →
       (∀ pd ∈ docs, ∃ fields, pd = .obj fields) →
       (∃ pd ∈ docs, ∃ fields k, pd = .obj fields
          ∧ k ∈ requiredDocumentKeys
          ∧ fields.find? (fun f => f.1 == k) = none) →
       ∃ k2, k2 ∈ requiredDocumentKeys
         ∧ get_documents st now case_uuid u tokResp resp
             = (.error (.keyError k2), st,
                [Request.documentListReq
                   (DOMAIN ++ "/api/Document/GetList?api-version=1.0-Case")
                   (buildDocumentListPayload u case_uuid)])) := by
  refine ⟨?_, ?_, ?_, ?_⟩
  · intro fields k hk hnone
    rcases mapDocument_obj_spec fields with ⟨hall, d0, hd0⟩ | ⟨k2, hk2, he⟩
    · rcases hall k hk with ⟨f, hf⟩
      rw [hf] at hnone
      cases hnone
    · exact ⟨k2, hk2, he⟩
  · intro k s h
    cases h
  · intro fields d hfind hd
    unfold mapDocument at hd
    repeat (split at hd <;> try cases hd)
    simp [JsonValue.getDefault, hfind]
  · intro st now case_uuid u tokResp resp docs hrefresh hstatus hget hobj hmiss
    obtain ⟨k2, hk2, he⟩ := mapDocuments_missing_key docs hobj hmiss
    rcases get_bearer_token_cases st now tokResp with
      ⟨hr, heq⟩ | ⟨hr, hs, heq⟩ | ⟨hr, hs, heq⟩
    · have hrs : raise_for_status resp.status = .ok () := by
        simp [raise_for_status, Nat.not_le.mpr hstatus]
      have hmap : mapDocumentsResponse resp.body = .error (.keyError k2) := by
        simp [mapDocumentsResponse, hget, JsonValue.asList, he]
      exact ⟨k2, hk2, by simp [get_documents, heq, hrs, hmap]⟩
    · rw [hr] at hrefresh
      cases hrefresh
    · rw [hr] at hrefresh
      cases hrefresh

/-- Fields of a demo document element missing the required
`documentUuid`. -/
def C4demo_missing : List (String × JsonValue) :=
  [("title", .str "T"), ("sensitivity", .str "Fortrolige"),
   ("documentType", .str "Indgaaende"), ("approved", .boolVal true),
   ("documentDate", .str "2023-01-01"), ("fileExtension", .str "pdf")]

/-- Fields of a demo document element with every required key but no
`description`. -/
def C4demo_full : List (String × JsonValue) :=
  [("documentUuid", .str "doc-uuid"), ("title", .str "T"),
   ("sensitivity", .str "Fortrolige"), ("documentType", .str "Indgaaende"),
   ("approved", .boolVal true), ("documentDate", .str "2023-01-01"),
   ("fileExtension", .str "pdf")]

/-- The document `C4demo_full` maps to. -/
def C4demo_full_mapped : NovaDocument :=
  { uuid := .str "doc-uuid", title := .str "T",
    sensitivity := .str "Fortrolige", document_type := .str "Indgaaende",
    description := none, approved := .boolVal true,
    document_date := .str "2023-01-01", file_extension := .str "pdf" }

/-- C4 witness: the structural failure, the error distinctness and the
description default at concrete inputs. -/
theorem C4_missing_required_field_witness :
    (∃ k2, k2 ∈ requiredDocumentKeys
       ∧ mapDocument (.obj C4demo_missing) = .error (.keyError k2))
  ∧ PyError.keyError "documentUuid" ≠ PyError.httpError 404
  ∧ C4demo_full_mapped.description = none
  ∧ (∃ k2, k2 ∈ requiredDocumentKeys
       ∧ get_documents
           { client_id := "id", client_secret := "secret",
             bearer_token := "tok", token_expiry_date := 1000 }
           0 "case-uuid" "u"
           { status := 200, body := { access_token := "a", expires_in := 1 } }
           { status := 200, body := .obj [("documents", .arr [.obj C4demo_missing])] }
           = (.error (.keyError k2),
              { client_id := "id", client_secret := "secret",
                bearer_token := "tok", token_expiry_date := 1000 },
              [Request.documentListReq
                 (DOMAIN ++ "/api/Document/GetList?api-version=1.0-Case")
                 (buildDocumentListPayload "u" "case-uuid")])) := by
  refine ⟨?_, ?_, ?_, ?_⟩
  · exact C4_missing_required_field.1 C4demo_missing "documentUuid" (by decide) rfl
  · exact C4_missing_required_field.2.1 "documentUuid" 404
  · exact C4_missing_required_field.2.2.1 C4demo_full C4demo_full_mapped rfl rfl
  · exact C4_missing_required_field.2.2.2
      { client_id := "id", client_secret := "secret",
        bearer_token := "tok", token_expiry_date := 1000 }
      0 "case-uuid" "u"
      { status := 200, body := { access_token := "a", expires_in := 1 } }
      { status := 200, body := .obj [("documents", .arr [.obj C4demo_missing])] }
      [.obj C4demo_missing]
      rfl (by decide) rfl
      (fun pd hpd => ⟨C4demo_missing, by
        rcases List.mem_singleton.mp hpd with rfl
        rfl⟩)
      ⟨.obj C4demo_missing, List.Mem.head _, C4demo_missing, "documentUuid",
       rfl, by decide, rfl⟩

/-- C10: every public operation leaves the stored credentials unchanged,
and when the token-refresh condition does not hold the whole client state
is returned unchanged (the token pair changes only inside the refresh
branch of `get_bearer_token`). -/
theorem C10_frame :
    (∀ st now cpr u tokResp (resp : HttpResponse JsonValue),
       ((get_address_by_cpr st now cpr u tokResp resp).2.1.client_id = st.client_id
        ∧ (get_address_by_cpr st now cpr u tokResp resp).2.1.client_secret = st.client_secret)
       ∧ (refreshDue st now = false →
            (get_address_by_cpr st now cpr u tokResp resp).2.1 = st))
  ∧ (∀ st now cpr case_number case_title u tokResp (resp : HttpResponse JsonValue),
       ((get_cases st now cpr case_number case_title u tokResp resp).2.1.client_id = st.client_id
        ∧ (get_cases st now cpr case_number case_title u tokResp resp).2.1.client_secret = st.client_secret)
       ∧ (refreshDue st now = false →
            (get_cases st now cpr case_number case_title u tokResp resp).2.1 = st))
  ∧ (∀ st now document_path u1 u2 guessedMime fileContent tokResp (resp : HttpResponse Unit),
       ((upload_document st now document_path u1 u2 guessedMime fileContent tokResp resp).2.1.client_id = st.client_id
        ∧ (upload_document st now document_path u1 u2 guessedMime fileContent tokResp resp).2.1.client_secret = st.client_secret)
       ∧ (refreshDue st now = false →
            (upload_document st now document_path u1 u2 guessedMime fileContent tokResp resp).2.1 = st))
  ∧ (∀ st now case_uuid u tokResp (resp : HttpResponse JsonValue),
       ((get_documents st now case_uuid u tokResp resp).2.1.client_id = st.client_id
        ∧ (get_documents st now case_uuid u tokResp resp).2.1.client_secret = st.client_secret)
       ∧ (refreshDue st now = false →
            (get_documents st now case_uuid u tokResp resp).2.1 = st))
  ∧ (∀ st now document_uuid checkout checkout_comment u tokResp (resp : HttpResponse String),
       ((download_document_file st now document_uuid checkout checkout_comment u tokResp resp).2.1.client_id = st.client_id
        ∧ (download_document_file st now document_uuid checkout checkout_comment u tokResp resp).2.1.client_secret = st.client_secret)
       ∧ (refreshDue st now = false →
            (download_document_file st now document_uuid checkout checkout_comment u tokResp resp).2.1 = st))
  ∧ (∀ st now case_uuid document security_unit_id security_unit_name u tokResp (resp : HttpResponse Unit),
       ((attach_document_to_case st now case_uuid document security_unit_id security_unit_name u tokResp resp).2.1.client_id = st.client_id
        ∧ (attach_document_to_case st now case_uuid document security_unit_id security_unit_name u tokResp resp).2.1.client_secret = st.client_secret)
       ∧ (refreshDue st now = false →
            (attach_document_to_case st now case_uuid document security_unit_id security_unit_name u tokResp resp).2.1 = st)) := by
  refine ⟨?_, ?_, ?_, ?_, ?_, ?_⟩
  · intro st now cpr u tokResp resp
    rcases get_bearer_token_cases st now tokResp with
      ⟨hr, heq⟩ | ⟨hr, hs, heq⟩ | ⟨hr, hs, heq⟩ <;>
      rcases hrs : raise_for_status resp.status with e | v <;>
      refine ⟨⟨?_, ?_⟩, ?_⟩ <;>
      simp [get_address_by_cpr, heq, hrs] <;>
      (intro h; rw [hr] at h; cases h)
  · intro st now cpr case_number case_title u tokResp resp
    by_cases hq : pyAny [cpr, case_number, case_title] = false
    · refine ⟨⟨?_, ?_⟩, ?_⟩ <;> simp [get_cases, hq]
    · rcases get_bearer_token_cases st now tokResp with
        ⟨hr, heq⟩ | ⟨hr, hs, heq⟩ | ⟨hr, hs, heq⟩ <;>
        rcases hrs : raise_for_status resp.status with e | v <;>
        refine ⟨⟨?_, ?_⟩, ?_⟩ <;>
        simp [get_cases, hq, heq, hrs] <;>
        (intro h; rw [hr] at h; cases h)
  · intro st now document_path u1 u2 guessedMime fileContent tokResp resp
    rcases get_bearer_token_cases st now tokResp with
      ⟨hr, heq⟩ | ⟨hr, hs, heq⟩ | ⟨hr, hs, heq⟩ <;>
      rcases hrs : raise_for_status resp.status with e | v <;>
      refine ⟨⟨?_, ?_⟩, ?_⟩ <;>
      simp [upload_document, heq, hrs] <;>
      (intro h; rw [hr] at h; cases h)
  · intro st now case_uuid u tokResp resp
    rcases get_bearer_token_cases st now tokResp with
      ⟨hr, heq⟩ | ⟨hr, hs, heq⟩ | ⟨hr, hs, heq⟩ <;>
      rcases hrs : raise_for_status resp.status with e | v <;>
      refine ⟨⟨?_, ?_⟩, ?_⟩ <;>
      simp [get_documents, heq, hrs] <;>
      (intro h; rw [hr] at h; cases h)
  · intro st now document_uuid checkout checkout_comment u tokResp resp
    rcases get_bearer_token_cases st now tokResp with
      ⟨hr, heq⟩ | ⟨hr, hs, heq⟩ | ⟨hr, hs, heq⟩ <;>
      rcases hrs : raise_for_status resp.status with e | v <;>
      refine ⟨⟨?_, ?_⟩, ?_⟩ <;>
      simp [download_document_file, heq, hrs] <;>
      (intro h; rw [hr] at h; cases h)
  · intro st now case_uuid document security_unit_id security_unit_name u tokResp resp
    rcases get_bearer_token_cases st now tokResp with
      ⟨hr, heq⟩ | ⟨hr, hs, heq⟩ | ⟨hr, hs, heq⟩ <;>
      rcases hrs : raise_for_status resp.status with e | v <;>
      refine ⟨⟨?_, ?_⟩, ?_⟩ <;>
      simp [attach_document_to_case, heq, hrs] <;>
      (intro h; rw [hr] at h; cases h)

/-- A demo client state whose token is far from expiry. -/
def C10demo_state : ClientState :=
  { client_id := "id", client_secret := "secret",
    bearer_token := "tok", token_expiry_date := 1000 }

/-- A demo token response. -/
def C10demo_tok : HttpResponse TokenBody :=
  { status := 200, body := { access_token := "a", expires_in := 1 } }

/-- A demo document object. -/
def C10demo_doc : NovaDocument :=
  { uuid := .str "doc-uuid", title := .str "T", sensitivity := .str "F",
    document_type := .str "I", description := none,
    approved := .boolVal true, document_date := .str "2023-01-01",
    file_extension := .str "pdf" }

/-- C10 witness: with the refresh condition false, each of the six
operations returns the client state unchanged at concrete inputs. -/
theorem C10_frame_witness :
    (get_address_by_cpr C10demo_state 0 "0123456789" "u" C10demo_tok
        { status := 200, body := .null }).2.1 = C10demo_state
  ∧ (get_cases C10demo_state 0 (some "c") none none "u" C10demo_tok
        { status := 200, body := .null }).2.1 = C10demo_state
  ∧ (upload_document C10demo_state 0 "/tmp/f.txt" "u1" "u2" none "b" C10demo_tok
        { status := 200, body := () }).2.1 = C10demo_state
  ∧ (get_documents C10demo_state 0 "cu" "u" C10demo_tok
        { status := 200, body := .null }).2.1 = C10demo_state
  ∧ (download_document_file C10demo_state 0 "du" false none "u" C10demo_tok
        { status := 200, body := "bytes" }).2.1 = C10demo_state
  ∧ (attach_document_to_case C10demo_state 0 "cu" C10demo_doc 818485
        "Borgerservice" "u" C10demo_tok { status := 200, body := () }).2.1
      = C10demo_state :=
  ⟨(C10_frame.1 C10demo_state 0 "0123456789" "u" C10demo_tok
      { status := 200, body := .null }).2 rfl,
   (C10_frame.2.1 C10demo_state 0 (some "c") none none "u" C10demo_tok
      { status := 200, body := .null }).2 rfl,
   (C10_frame.2.2.1 C10demo_state 0 "/tmp/f.txt" "u1" "u2" none "b" C10demo_tok
      { status := 200, body := () }).2 rfl,
   (C10_frame.2.2.2.1 C10demo_state 0 "cu" "u" C10demo_tok
      { status := 200, body := .null }).2 rfl,
   (C10_frame.2.2.2.2.1 C10demo_state 0 "du" false none "u" C10demo_tok
      { status := 200, body := "bytes" }).2 rfl,
   (C10_frame.2.2.2.2.2 C10demo_state 0 "cu" C10demo_doc 818485
      "Borgerservice" "u" C10demo_tok { status := 200, body := () }).2 rfl⟩
